import Mathlib

/-!
Shallow embedding of the grid-world MDP (src/Robot_cls.py) and of the
tabular Q-learning driver (src/q_learning.py).

Conventions of the embedding:
* Cell labels are `Char` (`'T'`, `'.'`, `'o'`, `'S'`, `'x'`), the reward
  mapping is an association list `List (Char × ℚ)`; a failed dictionary
  lookup (Python `KeyError`) is `Option.none`.
* Python exceptions are an explicit error type `RobotError`; the spec's
  taxonomy names are used for the corresponding Python raises
  (`ValueError "Invalid action"` / the dictionary `KeyError` on an action
  key ↦ `invalidAction`, a state-key `KeyError` ↦ `invalidState`, the
  unknown-selector `ValueError` and the construction-time reward
  `KeyError` ↦ `unknownWorld`).
* Machine integers are `Nat`/`Int`; grid coordinates inside
  `_update_state` are `Int` pairs because the candidate coordinate can be
  negative before the bounds check, exactly as in the numpy code.
-/

inductive RobotError where
  | invalidState
  | invalidAction
  | unknownWorld
  | pathNotFound
deriving DecidableEq, Repr

/-- A world definition: the grid matrix (row-major, `world[y][x]`) and the
label → reward dictionary, as passed to `Robot.__init__`. -/
structure GridWorld where
  world : List (List Char)
  rewards : List (Char × ℚ)
deriving DecidableEq, Repr

/-- `self.MAX_Y = self.shape[0]`: number of rows. -/
def GridWorld.MAX_Y (w : GridWorld) : Nat := w.world.length

/-- `self.MAX_X = self.shape[1]`: number of columns (numpy arrays are
rectangular, so the first row's length is the common row length). -/
def GridWorld.MAX_X (w : GridWorld) : Nat := (w.world.headD []).length

/-- `self.nSp = self.MAX_X * self.MAX_Y`: total number of states. -/
def GridWorld.nSp (w : GridWorld) : Nat := w.MAX_X * w.MAX_Y

/-- `self.world[y, x]` as a fallible lookup; `xy` is `(x, y)`. -/
def cellAt (w : GridWorld) (xy : Nat × Nat) : Option Char :=
  (w.world.get? xy.2).bind fun row => row.get? xy.1

/-- `Robot._state2coord`: `numpy.unravel_index (state, shape, order = "C")`
gives `(y, x) = (state / MAX_X, state % MAX_X)`; the method returns the
swapped pair `(x, y)`.  (numpy raises for `state ≥ nSp`; all call sites in
the class use valid states, and the theorems carry that bound.) -/
def _state2coord (w : GridWorld) (state : Nat) : Nat × Nat :=
  (state % w.MAX_X, state / w.MAX_X)

/-- `Robot._coord2state`: `numpy.ravel_multi_index ((y, x), shape, "C")
= y * MAX_X + x`. -/
def _coord2state (w : GridWorld) (xy : Nat × Nat) : Nat :=
  xy.2 * w.MAX_X + xy.1

/-- The label of the cell a state lives on: `self.world[y, x]` at
`(x, y) = self._state2coord (state)`. -/
def stateLabel (w : GridWorld) (state : Nat) : Option Char :=
  cellAt w (_state2coord w state)

/-- `Robot.is_terminal`: `self.world[y, x] == "T"`. -/
def is_terminal (w : GridWorld) (state : Nat) : Bool :=
  stateLabel w state == some 'T'

/-- `Robot._is_start`: `self.world[y, x] == "S"`. -/
def _is_start (w : GridWorld) (state : Nat) : Bool :=
  stateLabel w state == some 'S'

/-- `Robot._is_outside_at`: `y < 0 or x < 0 or y >= MAX_Y or x >= MAX_X`,
on the possibly-negative candidate coordinate `xy = (x, y)`. -/
def _is_outside_at (w : GridWorld) (xy : Int × Int) : Bool :=
  decide (xy.2 < 0) || decide (xy.1 < 0) ||
  decide ((w.MAX_Y : Int) ≤ xy.2) || decide ((w.MAX_X : Int) ≤ xy.1)

/-- `Robot._is_obstacle_at`: `self.world[y, x] == 'o'`.  Only called on
coordinates that passed the outside check, hence the `toNat`s are exact. -/
def _is_obstacle_at (w : GridWorld) (xy : Int × Int) : Bool :=
  cellAt w (xy.1.toNat, xy.2.toNat) == some 'o'

/-- The coordinate delta of each action: NORTH=0 ↦ (0,-1), SOUTH=1 ↦ (0,1),
WEST=2 ↦ (-1,0), EAST=3 ↦ (1,0); `none` models the `else: raise ValueError`
branch of `_update_state`. -/
def actionDelta : Nat → Option (Int × Int)
  | 0 => some (0, -1)
  | 1 => some (0, 1)
  | 2 => some (-1, 0)
  | 3 => some (1, 0)
  | _ => none

/-- The geometric target coordinate `new_xy = xy + delta` of a move. -/
def actionTarget (w : GridWorld) (state : Nat) (d : Int × Int) : Int × Int :=
  let xy := _state2coord w state
  ((xy.1 : Int) + d.1, (xy.2 : Int) + d.2)

/-- `Robot._update_state`: compute the candidate coordinate, stay put when
it is outside the grid or an obstacle, else move there. -/
def _update_state (w : GridWorld) (state action : Nat) : Except RobotError Nat :=
  match actionDelta action with
  | none => .error .invalidAction
  | some d =>
    let nxy := actionTarget w state d
    if _is_outside_at w nxy then .ok state
    else if _is_obstacle_at w nxy then .ok state
    else .ok (_coord2state w (nxy.1.toNat, nxy.2.toNat))

/-- `self.rewards[label]`, a dictionary lookup. -/
def lookupReward (rewards : List (Char × ℚ)) (c : Char) : Option ℚ :=
  (rewards.find? fun p => p.1 == c).map (·.2)

/-- `self.rewards[self.world[y, x]]` at the cell of `state`: the reward
lookup `__init__` performs at the resulting state of every transition. -/
def rewardAt (w : GridWorld) (state : Nat) : Option ℚ :=
  (stateLabel w state).bind (lookupReward w.rewards)

/-- `Robot.take_action (state, action) = (self.T[state][action],
self.R[state][action])`.  Both branches of the `__init__` loop store
`T[s][a] = self._update_state (s, a)` and
`R[s][a] = self.rewards[label of T[s][a]]` for every `s < nSp` and
`a ∈ A` (the terminal branch's body is identical to the non-terminal
branch's), so the table lookups return exactly these values; the `dict`
`KeyError`s on a missing state key or action key are the two error
branches. -/
def take_action (w : GridWorld) (state action : Nat) : Except RobotError (Nat × ℚ) :=
  if state < w.nSp then
    match _update_state w state action with
    | .error e => .error e
    | .ok s₁ =>
      match rewardAt w s₁ with
      | some r => .ok (s₁, r)
      | none => .error .unknownWorld
  else .error .invalidState

/-- `self.S`: every non-terminal state, appended in ascending order by the
`__init__` loop. -/
def S (w : GridWorld) : List Nat :=
  (List.range w.nSp).filter fun s => !is_terminal w s

/-- `self.Sp` after line `self.Sp = self.Sp + self.S`: the terminal states
(in ascending order) followed by all non-terminal states. -/
def Sp (w : GridWorld) : List Nat :=
  ((List.range w.nSp).filter fun s => is_terminal w s) ++ S w

/-- `self.S_start`: states whose label is `"S"`. -/
def S_start (w : GridWorld) : List Nat :=
  (List.range w.nSp).filter fun s => _is_start w s

/-- Does the `__init__` loop complete without a reward `KeyError`?  The
loop looks up `self.rewards[label of _update_state (s, a)]` for every
state `s < nSp` and every action `a ∈ A`. -/
def initRewardsOK (w : GridWorld) : Bool :=
  (List.range w.nSp).all fun s =>
    (List.range 4).all fun a =>
      ((_update_state w s a).toOption.bind fun s₁ => rewardAt w s₁).isSome

/-- `Robot.__init__`'s fallible part: construction succeeds exactly when
every reward lookup it performs succeeds; a missing label raises (spec
taxonomy: `UnknownWorldError`). -/
def robotInit (w : GridWorld) : Except RobotError Unit :=
  if initRewardsOK w then .ok () else .error .unknownWorld

/-- The `"4x4_world"` preset of `Robot._create_example_world`. -/
def world_4x4 : GridWorld :=
  { world := [['S', '.', '.', '.'],
              ['.', '.', '.', '.'],
              ['.', '.', '.', '.'],
              ['.', '.', '.', 'T']],
    rewards := [('T', 0), ('.', -1), ('S', -1)] }

/-- The `"obstacles"` preset. -/
def world_obstacles : GridWorld :=
  { world := [['.', '.', '.', '.', '.', '.'],
              ['.', 'o', '.', '.', 'S', '.'],
              ['.', 'o', 'o', '.', '.', '.'],
              ['.', '.', 'o', '.', '.', '.'],
              ['.', '.', 'o', 'o', 'o', 'o'],
              ['.', '.', '.', '.', '.', 'T']],
    rewards := [('T', 0), ('.', -1), ('o', -1), ('S', -1)] }

/-- The `"6x6_world_blocked"` preset. -/
def world_6x6_blocked : GridWorld :=
  { world := [['T', '.', '.', '.', '.', '.'],
              ['.', '.', '.', '.', '.', '.'],
              ['.', '.', 'o', 'o', 'o', 'o'],
              ['.', '.', 'o', '.', '.', '.'],
              ['.', '.', 'o', '.', '.', 'S'],
              ['.', '.', 'o', '.', '.', '.']],
    rewards := [('T', 0), ('.', -1), ('o', -1), ('S', -1)] }

/-- The `"6x4_world_2"` preset. -/
def world_6x4_2 : GridWorld :=
  { world := [['T', '.', '.', '.'],
              ['x', 'x', 'x', 'x'],
              ['x', 'x', '.', 'x'],
              ['x', 'x', '.', 'x'],
              ['x', 'x', '.', 'x'],
              ['S', '.', '.', '.']],
    rewards := [('T', 0), ('.', -1), ('o', -1), ('x', -5), ('S', -1)] }

/-- `Robot._create_example_world`: the `if/elif` chain over the selector
string; an unknown name raises (spec taxonomy: `UnknownWorldError`). -/
def _create_example_world (t : String) : Except RobotError GridWorld :=
  if t = "4x4_world" then .ok world_4x4
  else if t = "obstacles" then .ok world_obstacles
  else if t = "6x6_world_blocked" then .ok world_6x6_blocked
  else if t = "6x4_world_2" then .ok world_6x4_2
  else .error .unknownWorld

/-! ### Learning engine (src/q_learning.py) -/

/-- The action-value table `Q`, of shape `(nSp, nA)`: row `s`, column `a`. -/
def QTable : Type := Nat → Nat → ℚ

/-- `numpy.zeros((robot.nSp, robot.nA))`. -/
def Qzero : QTable := fun _ _ => 0

/-- Point update `Q[s][a] = v`. -/
def updateQ (Q : QTable) (s a : Nat) (v : ℚ) : QTable :=
  fun s₁ a₁ => if s₁ = s ∧ a₁ = a then v else Q s₁ a₁

/-- `max_a' Q[s'][a']` over the four actions. -/
def maxQ (Q : QTable) (s : Nat) : ℚ :=
  max (max (Q s 0) (Q s 1)) (max (Q s 2) (Q s 3))

/-- Modelled from the spec: the table-update step of the learning loop is
an unfinished `Q[cur_state][action] = ...` placeholder in
src/q_learning.py; spec §4.2 prescribes updating the entry toward the
sampled TD target `r + γ · max Q[s']` with a tunable step size `α`. -/
def tdUpdate (Q : QTable) (s a : Nat) (α γ r : ℚ) (s₁ : Nat) : ℚ :=
  Q s a + α * (r + γ * maxQ Q s₁ - Q s a)

/-- The body of the learning loop, executed once per iteration (the three
`## STUDENT TASK ##` steps are `...` placeholders in src/q_learning.py and
are modelled from the spec: choose `a = policy(s)`, take
`(s', r) = take_action(s, a)`, update `Q[s][a]`; the final
`cur_state = new_state` advance is source code).  Returns the new state
and table, plus the `(state, action)` pair of this iteration as a trace
entry. -/
def qBody (w : GridWorld) (policy : Nat → Nat) (α γ : ℚ) (s : Nat) (Q : QTable) :
    Except RobotError (Nat × QTable × (Nat × Nat)) :=
  let a := policy s
  match take_action w s a with
  | .error e => .error e
  | .ok (s₁, r) => .ok (s₁, updateQ Q s a (tdUpdate Q s a α γ r s₁), (s, a))

/-- The loop `i = 0; while i <= num_iterations: i += 1; <body>` of
`q_learning` executes its body once for each counter value
`i ∈ {0, …, num_iterations}`; it is translated by structural recursion on
the number `fuel = num_iterations + 1 - i` of body executions still to
perform.  The returned list records one `(state, action)` trace entry per
body execution, so its length is the number of iterations performed. -/
def qLoop (w : GridWorld) (policy : Nat → Nat) (α γ : ℚ) :
    Nat → Nat → QTable → Except RobotError (QTable × List (Nat × Nat))
  | 0, _, Q => .ok (Q, [])
  | fuel + 1, s, Q =>
    match qBody w policy α γ s Q with
    | .error e => .error e
    | .ok (s₁, Q₁, tr) =>
      match qLoop w policy α γ fuel s₁ Q₁ with
      | .error e => .error e
      | .ok (Q₂, trs) => .ok (Q₂, tr :: trs)

/-- `q_learning (robot, policy, init_state, discount_factor,
num_iterations)`: start from `Q = 0` and the initial state and run the
loop; entering the loop with `i = 0` and condition `i <= num_iterations`
means `num_iterations + 1` body executions remain. -/
def q_learning (w : GridWorld) (policy : Nat → Nat) (α γ : ℚ)
    (init_state num_iterations : Nat) :
    Except RobotError (QTable × List (Nat × Nat)) :=
  qLoop w policy α γ (num_iterations + 1) init_state Qzero

/-- The state component of `take_action` (its first return value). -/
def stepState (w : GridWorld) (s a : Nat) : Nat :=
  match _update_state w s a with
  | .ok s₁ => s₁
  | .error _ => s

/-- The states visited by repeatedly applying the actions `σ 0, σ 1, …`. -/
def trajectory (w : GridWorld) (σ : Nat → Nat) (s : Nat) : Nat → Nat
  | 0 => s
  | k + 1 => stepState w (trajectory w σ s k) (σ k)

/-- Modelled from the spec: greedy action selection for path extraction
(the body of `get_optimal_path` is an unfinished `while ...` placeholder
in src/q_learning.py); spec §4.2 prescribes selecting the action
maximizing `Q[s]` with an explicit tie-break, lowest action index first. -/
def greedyAction (Q : QTable) (s : Nat) : Nat :=
  [1, 2, 3].foldl (fun best a => if Q s best < Q s a then a else best) 0

/-- Modelled from the spec: the capped greedy walk of `get_optimal_path`
(missing from src/q_learning.py) — append the current state, stop with the
path once a terminal state is reached, and fail with `PathNotFoundError`
when the iteration cap is exhausted first. -/
def pathLoop (w : GridWorld) (Q : QTable) :
    Nat → Nat → List Nat → Except RobotError (List Nat)
  | 0, _, _ => .error .pathNotFound
  | fuel + 1, s, path =>
    if is_terminal w s then .ok (path ++ [s])
    else pathLoop w Q fuel (stepState w s (greedyAction Q s)) (path ++ [s])

/-- Modelled from the spec: `get_optimal_path (robot, Q)` starts from
`robot.S_start[0]` (source code) and runs the capped greedy walk with an
iteration cap `cap`. -/
def get_optimal_path (w : GridWorld) (Q : QTable) (cap : Nat) :
    Except RobotError (List Nat) :=
  pathLoop w Q cap ((S_start w).headD 0) []

/-- The states visited by the greedy walk. -/
def greedyTraj (w : GridWorld) (Q : QTable) (s : Nat) : Nat → Nat
  | 0 => s
  | k + 1 => stepState w (greedyTraj w Q s k) (greedyAction Q (greedyTraj w Q s k))

/-! ### Supporting lemmas -/

theorem state2coord_coord2state (w : GridWorld) (x y : Nat) (hx : x < w.MAX_X) :
    _state2coord w (_coord2state w (x, y)) = (x, y) := by
  have hX : 0 < w.MAX_X := (Nat.zero_le x).trans_lt hx
  simp only [_state2coord, _coord2state, Prod.mk.injEq]
  constructor
  · rw [Nat.mul_comm, Nat.mul_add_mod, Nat.mod_eq_of_lt hx]
  · rw [Nat.mul_comm, Nat.mul_add_div hX, Nat.div_eq_of_lt hx]
    omega

theorem coord2state_state2coord (w : GridWorld) (s : Nat) :
    _coord2state w (_state2coord w s) = s := by
  simp only [_state2coord, _coord2state]
  rw [Nat.mul_comm]
  exact Nat.div_add_mod s w.MAX_X

theorem actionDelta_eq_none (a : Nat) (ha : 4 ≤ a) : actionDelta a = none := by
  match a, ha with
  | n + 4, _ => rfl

theorem update_state_ok (w : GridWorld) (s a : Nat) (ha : a < 4) :
    ∃ s₁, _update_state w s a = .ok s₁ := by
  interval_cases a <;>
    · simp only [_update_state, actionDelta]
      split_ifs <;> exact ⟨_, rfl⟩

theorem update_state_lt (w : GridWorld) (s a s₁ : Nat) (hs : s < w.nSp)
    (h : _update_state w s a = .ok s₁) : s₁ < w.nSp := by
  simp only [_update_state] at h
  split at h
  · exact absurd h (by simp)
  · rename_i d hd
    split at h
    · exact Except.ok.inj h ▸ hs
    · split at h
      · exact Except.ok.inj h ▸ hs
      · rename_i houts hobs
        simp only [_is_outside_at, actionTarget, _state2coord, Bool.or_eq_true,
          decide_eq_true_eq, not_or, not_lt, not_le] at houts
        obtain ⟨⟨⟨hy0, hx0⟩, hyY⟩, hxX⟩ := houts
        have h1 := Except.ok.inj h
        subst h1
        simp only [_coord2state, GridWorld.nSp]
        have hxN : ((s % w.MAX_X : Nat) + d.1).toNat < w.MAX_X := by omega
        have hyN : ((s / w.MAX_X : Nat) + d.2).toNat < w.MAX_Y := by omega
        calc ((s / w.MAX_X : Nat) + d.2).toNat * w.MAX_X
              + ((s % w.MAX_X : Nat) + d.1).toNat
            < (((s / w.MAX_X : Nat) + d.2).toNat + 1) * w.MAX_X := by
              rw [Nat.succ_mul]; omega
          _ ≤ w.MAX_Y * w.MAX_X := Nat.mul_le_mul_right _ (by omega)
          _ = w.MAX_X * w.MAX_Y := Nat.mul_comm _ _

theorem update_state_not_obstacle (w : GridWorld) (s a s₁ : Nat)
    (hno : stateLabel w s ≠ some 'o') (h : _update_state w s a = .ok s₁) :
    stateLabel w s₁ ≠ some 'o' := by
  simp only [_update_state] at h
  split at h
  · exact absurd h (by simp)
  · rename_i d hd
    split at h
    · exact Except.ok.inj h ▸ hno
    · split at h
      · exact Except.ok.inj h ▸ hno
      · rename_i houts hobs
        simp only [_is_outside_at, actionTarget, _state2coord, Bool.or_eq_true,
          decide_eq_true_eq, not_or, not_lt, not_le] at houts
        obtain ⟨⟨⟨hy0, hx0⟩, hyY⟩, hxX⟩ := houts
        simp only [_is_obstacle_at, actionTarget, _state2coord, beq_iff_eq] at hobs
        have h1 := Except.ok.inj h
        subst h1
        have hxN : ((s % w.MAX_X : Nat) + d.1).toNat < w.MAX_X := by omega
        have hcoord :
            _state2coord w (_coord2state w
              ((actionTarget w s d).1.toNat, (actionTarget w s d).2.toNat)) =
            ((actionTarget w s d).1.toNat, (actionTarget w s d).2.toNat) :=
          state2coord_coord2state w _ _
            (by simpa [actionTarget, _state2coord] using hxN)
        unfold stateLabel
        rw [hcoord]
        simpa [actionTarget, _state2coord] using hobs

theorem mem_Sp_lt (w : GridWorld) (s : Nat) (h : s ∈ Sp w) : s < w.nSp := by
  simp only [Sp, S, List.mem_append, List.mem_filter, List.mem_range] at h
  rcases h with h | h <;> exact h.1

theorem initRewardsOK_iff (w : GridWorld) :
    initRewardsOK w = true ↔
      ∀ s < w.nSp, ∀ a < 4,
        ((_update_state w s a).toOption.bind fun s₁ => rewardAt w s₁).isSome = true := by
  simp only [initRewardsOK, List.all_eq_true, List.mem_range]

theorem take_action_ok (w : GridWorld) (s a : Nat) (hw : initRewardsOK w = true)
    (hs : s < w.nSp) (ha : a < 4) :
    ∃ s₁ r, take_action w s a = .ok (s₁, r) ∧ s₁ < w.nSp := by
  obtain ⟨s₁, h1⟩ := update_state_ok w s a ha
  have h2 := (initRewardsOK_iff w).mp hw s hs a ha
  rw [h1] at h2
  simp only [Except.toOption, Option.some_bind, Option.isSome_iff_exists] at h2
  obtain ⟨r, hr⟩ := h2
  refine ⟨s₁, r, ?_, update_state_lt w s a s₁ hs h1⟩
  simp [take_action, hs, h1, hr]

/-! ### Claim theorems -/

/-- C1: the claim says terminal states are absorbing: `apply(t, a)` should
return `(t, reward_of_label(cell(t)))`.  The code violates this: in the
`"4x4_world"`, state 15 (coordinate (3,3)) is terminal, yet action NORTH
returns `(11, -1)` — the `__init__` terminal branch calls `_update_state`
like the non-terminal branch (the absorbing assignment `new_state_a =
state` is commented out, contradicting the adjacent source comment), so
the robot moves off the terminal state instead of returning
`(15, reward_of_label('T')) = (15, 0)`. -/
theorem c1_terminal_state_moves :
    is_terminal world_4x4 15 = true ∧
    take_action world_4x4 15 0 = .ok (11, -1) ∧
    rewardAt world_4x4 15 = some 0 ∧
    (11 : Nat) ≠ 15 :=
  ⟨rfl, rfl, rfl, by decide⟩

/-- C2: for every non-terminal state `s` and action `a` whose geometric
target is outside the grid or on an obstacle cell, `apply(s, a)` returns
`(s, reward_of_label(cell(s)))`. -/
theorem c2_blocked_move_is_noop (w : GridWorld) (s a : Nat) (d : Int × Int)
    (r : ℚ) (hs : s < w.nSp) (hterm : is_terminal w s = false)
    (hd : actionDelta a = some d)
    (hblock : _is_outside_at w (actionTarget w s d) = true ∨
      _is_obstacle_at w (actionTarget w s d) = true)
    (hr : rewardAt w s = some r) :
    take_action w s a = .ok (s, r) := by
  have hupd : _update_state w s a = .ok s := by
    simp only [_update_state, hd]
    rcases hblock with hb | hb
    · rw [if_pos hb]
    · by_cases ho : _is_outside_at w (actionTarget w s d) = true
      · rw [if_pos ho]
      · rw [if_neg ho, if_pos hb]
  simp [take_action, hs, hupd, hr]

theorem c2_witness : take_action world_4x4 0 0 = .ok (0, -1) :=
  c2_blocked_move_is_noop world_4x4 0 0 (0, -1) (-1) (by decide) rfl rfl
    (Or.inl rfl) rfl

/-- C3: for every state and action, the reward returned by `apply` is the
reward-mapping value of the label at the returned next state's cell. -/
theorem c3_reward_of_resulting_cell (w : GridWorld) (s a s₁ : Nat) (r : ℚ)
    (h : take_action w s a = .ok (s₁, r)) :
    rewardAt w s₁ = some r := by
  simp only [take_action] at h
  split at h
  · split at h
    · exact absurd h (by simp)
    · split at h
      · rename_i s₂ hupd r₂ hrw
        cases h
        exact hrw
      · exact absurd h (by simp)
  · exact absurd h (by simp)

theorem c3_witness : rewardAt world_4x4 1 = some (-1) :=
  c3_reward_of_resulting_cell world_4x4 0 3 1 (-1) rfl

/-- C4: the state/coordinate index maps are a total bijective inverse pair
on valid states and in-grid coordinates, under the fixed row-major layout
with origin at the top-left. -/
theorem c4_state_coord_bijection (w : GridWorld) (s x y : Nat)
    (hs : s < w.nSp) (hx : x < w.MAX_X) (hy : y < w.MAX_Y) :
    _coord2state w (_state2coord w s) = s ∧
    _state2coord w (_coord2state w (x, y)) = (x, y) :=
  ⟨coord2state_state2coord w s, state2coord_coord2state w x y hx⟩

theorem c4_witness :
    _coord2state world_4x4 (_state2coord world_4x4 7) = 7 ∧
    _state2coord world_4x4 (_coord2state world_4x4 (2, 3)) = (2, 3) :=
  c4_state_coord_bijection world_4x4 7 2 3 (by decide) (by decide) (by decide)

/-- C7: for every state in S+, calling `apply` with any action outside the
fixed 4-symbol action set fails with the invalid-action error. -/
theorem c7_invalid_action_rejected (w : GridWorld) (s a : Nat)
    (hs : s ∈ Sp w) (ha : 4 ≤ a) :
    take_action w s a = .error .invalidAction := by
  have hlt := mem_Sp_lt w s hs
  simp [take_action, hlt, _update_state, actionDelta_eq_none a ha]

theorem c7_witness : take_action world_4x4 15 4 = .error .invalidAction :=
  c7_invalid_action_rejected world_4x4 15 4 (by decide) (by decide)

/-- C9 counterexample: the claim says no obstacle-labelled state belongs
to S, but in the `"obstacles"` world state 7 (coordinate (1,1)) carries
the obstacle label and is a member of S — `__init__` appends every
non-terminal state to S, obstacles included. -/
theorem c9_obstacle_state_in_S :
    7 ∈ S world_obstacles ∧ stateLabel world_obstacles 7 = some 'o' :=
  ⟨by decide, rfl⟩

/-- C9 amended: every member of the constructed set S is a non-terminal
state; states carrying the obstacle label are non-terminal and therefore
also belong to S. -/
theorem c9_S_members_nonterminal (w : GridWorld) (s : Nat) (h : s ∈ S w) :
    is_terminal w s = false := by
  simp only [S, List.mem_filter, List.mem_range, Bool.not_eq_true'] at h
  exact h.2

theorem c9_witness : is_terminal world_4x4 0 = false :=
  c9_S_members_nonterminal world_4x4 0 (by decide)

/-- C10: for every state `s` and action `a` in the 4-action set, the
precomputed next state `T[s][a]` is a valid state index in
`[0, rows*cols)`, and if `s`'s cell is not an obstacle then neither is
`T[s][a]`'s; consequently repeated `apply` calls along any action
sequence starting from a non-obstacle state never leave the grid and
never land on an obstacle. -/
theorem c10_transitions_closed (w : GridWorld) (s a : Nat) (σ : Nat → Nat)
    (hs : s < w.nSp) (ha : a < 4) (hσ : ∀ k, σ k < 4) :
    (∃ s₁, _update_state w s a = .ok s₁ ∧ s₁ < w.nSp ∧
      (stateLabel w s ≠ some 'o' → stateLabel w s₁ ≠ some 'o')) ∧
    (∀ k, trajectory w σ s k < w.nSp ∧
      (stateLabel w s ≠ some 'o' →
        stateLabel w (trajectory w σ s k) ≠ some 'o')) := by
  constructor
  · obtain ⟨s₁, h1⟩ := update_state_ok w s a ha
    exact ⟨s₁, h1, update_state_lt w s a s₁ hs h1,
      fun hno => update_state_not_obstacle w s a s₁ hno h1⟩
  · intro k
    induction k with
    | zero => exact ⟨hs, fun hno => hno⟩
    | succ k ih =>
      obtain ⟨ihlt, ihobs⟩ := ih
      obtain ⟨s₁, h1⟩ := update_state_ok w (trajectory w σ s k) (σ k) (hσ k)
      have hstep : trajectory w σ s (k + 1) = s₁ := by
        simp [trajectory, stepState, h1]
      rw [hstep]
      exact ⟨update_state_lt w _ _ _ ihlt h1,
        fun hno => update_state_not_obstacle w _ _ _ (ihobs hno) h1⟩

theorem c10_witness :
    trajectory world_obstacles (fun _ => 1) 0 5 < world_obstacles.nSp :=
  ((c10_transitions_closed world_obstacles 0 1 (fun _ => 1) (by decide)
    (by decide) (fun _ => (by decide : (1 : Nat) < 4))).2 5).1

/-- A 3×3 grid whose interior obstacle cell carries the label `'o'`,
which is absent from the reward mapping.  No transition of any state
results in the obstacle cell (moves into it are blocked and moves from it
succeed), so `__init__` never looks `'o'` up. -/
def world_3x3_missing : GridWorld :=
  { world := [['.', '.', '.'],
              ['.', 'o', '.'],
              ['.', '.', '.']],
    rewards := [('.', -1), ('T', 0)] }

/-- C6 counterexample: the claim says a grid containing a label absent
from the reward mapping raises at construction time, but
`world_3x3_missing` contains the label `'o'` (at state 4), `'o'` has no
reward entry, and construction nevertheless succeeds, because the
obstacle cell is never the resulting cell of any transition. -/
theorem c6_missing_label_constructs :
    robotInit world_3x3_missing = .ok () ∧
    stateLabel world_3x3_missing 4 = some 'o' ∧
    lookupReward world_3x3_missing.rewards 'o' = none :=
  ⟨rfl, rfl, rfl⟩

/-- C6 amended: resolving an unknown world selector name fails with the
unknown-world error, and constructing the MDP engine fails at
construction time if and only if some `(state, action)` pair's resulting
cell has a label absent from the reward mapping (equivalently, it
succeeds iff every reward lookup the `__init__` loop performs succeeds);
a grid may therefore contain a missing label and still construct, when
the labelled cell is never a resulting cell. -/
theorem c6_unknown_world_errors :
    (∀ t : String, t ≠ "4x4_world" → t ≠ "obstacles" →
      t ≠ "6x6_world_blocked" → t ≠ "6x4_world_2" →
      _create_example_world t = .error .unknownWorld) ∧
    (∀ w : GridWorld, robotInit w = .ok () ↔
      ∀ s < w.nSp, ∀ a < 4,
        ((_update_state w s a).toOption.bind fun s₁ => rewardAt w s₁).isSome
          = true) := by
  constructor
  · intro t h1 h2 h3 h4
    simp [_create_example_world, h1, h2, h3, h4]
  · intro w
    rw [← initRewardsOK_iff]
    unfold robotInit
    split
    · rename_i hok
      simp [hok]
    · rename_i hbad
      simp [hbad]

theorem c6_witness : _create_example_world "no_such_world" = .error .unknownWorld :=
  c6_unknown_world_errors.1 "no_such_world" (by decide) (by decide) (by decide)
    (by decide)

/-- C5 counterexample: the claim says the learning loop performs exactly
`N` iterations for budget `N`, but with budget `N = 0` the loop
`i = 0; while i <= num_iterations` executes its body once (its trace has
length 1), not zero times. -/
theorem c5_zero_budget_runs_once :
    (q_learning world_4x4 (fun _ => 3) 1 1 0 0).map (fun p => p.2.length) =
      .ok 1 ∧ (1 : Nat) ≠ 0 :=
  ⟨rfl, by decide⟩

theorem qLoop_ok_length (w : GridWorld) (policy : Nat → Nat) (α γ : ℚ)
    (hw : initRewardsOK w = true) (hpol : ∀ s, policy s < 4) :
    ∀ (fuel s : Nat) (Q : QTable), s < w.nSp →
      ∃ Q₁ tr, qLoop w policy α γ fuel s Q = .ok (Q₁, tr) ∧
        tr.length = fuel := by
  intro fuel
  induction fuel with
  | zero => exact fun s Q _ => ⟨Q, [], rfl, rfl⟩
  | succ fuel ih =>
    intro s Q hs
    obtain ⟨s₁, r, hta, hlt⟩ := take_action_ok w s (policy s) hw hs (hpol s)
    obtain ⟨Q₂, tr, hrec, hlen⟩ :=
      ih s₁ (updateQ Q s (policy s) (tdUpdate Q s (policy s) α γ r s₁)) hlt
    refine ⟨Q₂, (s, policy s) :: tr, ?_, by simp [hlen]⟩
    simp [qLoop, qBody, hta, hrec]

/-- C5 amended: for every iteration budget `N`, the learning loop performs
exactly `N + 1` iterations (one policy choice, one apply call, one table
update and one state advance per iteration, witnessed by one trace entry
each) and then terminates, with no early stopping on convergence —
`i = 0; while i <= num_iterations` runs its body for every
`i ∈ {0, …, N}`. -/
theorem c5_loop_runs_budget_plus_one (w : GridWorld) (policy : Nat → Nat)
    (α γ : ℚ) (init_state num_iterations : Nat)
    (hw : initRewardsOK w = true) (hpol : ∀ s, policy s < 4)
    (hinit : init_state < w.nSp) :
    ∃ Q tr, q_learning w policy α γ init_state num_iterations = .ok (Q, tr) ∧
      tr.length = num_iterations + 1 :=
  qLoop_ok_length w policy α γ hw hpol (num_iterations + 1) init_state Qzero
    hinit

theorem c5_witness :
    (q_learning world_4x4 (fun _ => 3) 1 1 0 2).map (fun p => p.2.length) =
      .ok 3 := by
  obtain ⟨Q, tr, h, hl⟩ := c5_loop_runs_budget_plus_one world_4x4 (fun _ => 3)
    1 1 0 2 (by decide) (fun _ => (by decide : (3 : Nat) < 4)) (by decide)
  rw [h]
  simp [Except.map, hl]

theorem greedyTraj_succ_shift (w : GridWorld) (Q : QTable) (s : Nat) :
    ∀ k, greedyTraj w Q s (k + 1) =
      greedyTraj w Q (stepState w s (greedyAction Q s)) k := by
  intro k
  induction k with
  | zero => rfl
  | succ k ih =>
    show stepState w (greedyTraj w Q s (k + 1))
        (greedyAction Q (greedyTraj w Q s (k + 1))) = _
    rw [ih]
    rfl

theorem pathLoop_all_nonterminal (w : GridWorld) (Q : QTable) :
    ∀ (fuel s : Nat) (path : List Nat),
      (∀ k < fuel, is_terminal w (greedyTraj w Q s k) = false) →
      pathLoop w Q fuel s path = .error .pathNotFound := by
  intro fuel
  induction fuel with
  | zero => exact fun s path _ => rfl
  | succ fuel ih =>
    intro s path h
    have h0 : is_terminal w s = false := h 0 (Nat.succ_pos _)
    simp only [pathLoop, h0, Bool.false_eq_true, if_false]
    apply ih
    intro k hk
    have hk1 := h (k + 1) (Nat.succ_lt_succ hk)
    rwa [greedyTraj_succ_shift] at hk1

/-- C8: greedy path extraction, starting from the first element of
S_start, is guarded against non-termination — if the greedy policy does
not reach a terminal state within the iteration cap, extraction stops at
the cap and fails with the path-not-found error rather than looping
forever (the extraction function is total by construction). -/
theorem c8_greedy_extraction_capped (w : GridWorld) (Q : QTable) (cap : Nat)
    (hcycle : ∀ k < cap,
      is_terminal w (greedyTraj w Q ((S_start w).headD 0) k) = false) :
    get_optimal_path w Q cap = .error .pathNotFound :=
  pathLoop_all_nonterminal w Q cap ((S_start w).headD 0) [] hcycle

theorem c8_witness : get_optimal_path world_4x4 Qzero 3 = .error .pathNotFound :=
  c8_greedy_extraction_capped world_4x4 Qzero 3 (by decide)
